import Mathlib

/-!
Verification of the fp combinator library (curry / pipe / compose).

The development shallowly embeds the TypeScript sources:
- `src/unnamed/part_001` : the canonical curry implementation (named function
  expressions `$curry` / `$$curry`, dispatching on `arguments.length` with
  `>=` comparisons, throwing `Unsupported arity: n` otherwise).  This is the
  variant whose behaviour the repository's test suite asserts.
- `src/unnamed/part_000` : the arrow-function curry variant.  Its wrappers are
  arrow functions, and in JavaScript an arrow function does not bind its own
  `arguments` object: `arguments` inside the arrows refers to the enclosing
  `curry(fn)` call, whose argument count is always 1.  The embedding keeps
  that count as an explicit parameter `curryArgc`.
- `src/unnamed/part_002` : the switch-based curry variant (identity on
  arity-0/1 targets, exact `=== 2` argument-count dispatch, and a `switch`
  with no default that yields `undefined` for arities outside its cases).
- `src/src/pipe.ts` and `src/src/compose.ts` : the sequential reducers.

JavaScript calls are modelled by explicit argument lists: a call site supplies
a `List V` of argument values, a parameter that was not supplied reads as
`undefined` (the `u` / `JsVal.undef` default), and the supplied count is the
list length.  Asynchronous settlement is modelled by `Except E V`: `.ok` is a
fulfilled pending computation, `.error` a rejected one.
-/

namespace FP

/-- A small domain of JavaScript values, enough to express the falsy values
(zero, empty string, `null`, `undefined`, `false`) that the library's
dispatch must never confuse with "argument not supplied". -/
inductive JsVal where
  | undef
  | jnull
  | jbool (b : Bool)
  | num (n : Int)
  | jstr (s : String)
deriving DecidableEq

/-- Result of one call to a curried binary wrapper: either the target was
invoked (`done`) or a closure awaiting a further call was returned
(`wait`; the closure receives the argument list of that later call). -/
inductive Curry2Res (V R : Type) where
  | done (r : R)
  | wait (k : List V → R)

/-- Result of calling the intermediate callable `$$curry` produced by a
one-argument call to a curried ternary wrapper: the target was invoked, or a
unary closure awaiting the final argument was returned. -/
inductive Curry3Inner (V R : Type) where
  | done (r : R)
  | waitC (k : List V → R)

/-- Result of one call to a curried ternary wrapper: the target was invoked
(`done`), a unary closure awaiting the last argument was returned (`waitC`),
or the two-level callable `$$curry` was returned (`waitBC`). -/
inductive Curry3Res (V R : Type) where
  | done (r : R)
  | waitC (k : List V → R)
  | waitBC (k : List V → Curry3Inner V R)

/-- True when the binary wrapper invoked the target on this call. -/
def Curry2Res.isDone {V R : Type} : Curry2Res V R → Bool
  | .done _ => true
  | .wait _ => false

/-- True when the binary wrapper returned a waiting closure on this call. -/
def Curry2Res.isWait {V R : Type} : Curry2Res V R → Bool
  | .done _ => false
  | .wait _ => true

/-- True when the ternary wrapper invoked the target on this call. -/
def Curry3Res.isDone {V R : Type} : Curry3Res V R → Bool
  | .done _ => true
  | _ => false

/-- Drive a binary-wrapper result through a sequence of further calls (each
call is an argument list).  `some r` is produced exactly when the sequence
matches the shape of the returned closures and ends in a target invocation. -/
def Curry2Res.run {V R : Type} : Curry2Res V R → List (List V) → Option R
  | .done r, [] => some r
  | .wait k, [args] => some (k args)
  | _, _ => none

/-- Drive a `$$curry` result through further calls. -/
def Curry3Inner.run {V R : Type} : Curry3Inner V R → List (List V) → Option R
  | .done r, [] => some r
  | .waitC k, [args] => some (k args)
  | _, _ => none

/-- Drive a ternary-wrapper result through a sequence of further calls. -/
def Curry3Res.run {V R : Type} : Curry3Res V R → List (List V) → Option R
  | .done r, [] => some r
  | .waitC k, [args] => some (k args)
  | .waitBC k, args :: rest => Curry3Inner.run (k args) rest
  | _, _ => none

/-- Embedding of the canonical arity-2 wrapper `$curry` of
`src/unnamed/part_001` (lines 124-126): with `arguments.length >= 2` the
target is invoked at once, otherwise the unary arrow `(b) => fn(a, b)` is
returned.  `u` is the JavaScript `undefined` filling unsupplied parameters. -/
def curry2 {V R : Type} (u : V) (fn : V → V → R) (args : List V) : Curry2Res V R :=
  if 2 ≤ args.length then
    .done (fn (args.getD 0 u) (args.getD 1 u))
  else
    .wait (fun args2 => fn (args.getD 0 u) (args2.getD 0 u))

/-- Embedding of the canonical arity-3 wrapper `$curry` of
`src/unnamed/part_001` (lines 130-139): three or more arguments invoke the
target, exactly two return `(c) => fn(a, b, c)`, otherwise the named function
`$$curry(b, c)` is returned, which itself invokes on two or more arguments
and returns `(c) => fn(a, b, c)` on fewer. -/
def curry3 {V R : Type} (u : V) (fn : V → V → V → R) (args : List V) : Curry3Res V R :=
  if 3 ≤ args.length then
    .done (fn (args.getD 0 u) (args.getD 1 u) (args.getD 2 u))
  else if args.length = 2 then
    .waitC (fun args2 => fn (args.getD 0 u) (args.getD 1 u) (args2.getD 0 u))
  else
    .waitBC (fun args2 =>
      if 2 ≤ args2.length then
        .done (fn (args.getD 0 u) (args2.getD 0 u) (args2.getD 1 u))
      else
        .waitC (fun args3 => fn (args.getD 0 u) (args2.getD 0 u) (args3.getD 0 u)))

/-- Embedding of the switch-variant arity-2 wrapper `$curry` of
`src/unnamed/part_002` (lines 80-82): the target is invoked only when the
supplied count is exactly 2; any other count (including more than 2) returns
the waiting closure. -/
def curry2E {V R : Type} (u : V) (fn : V → V → R) (args : List V) : Curry2Res V R :=
  if args.length = 2 then
    .done (fn (args.getD 0 u) (args.getD 1 u))
  else
    .wait (fun args2 => fn (args.getD 0 u) (args2.getD 0 u))

/-- Embedding of the switch-variant arity-3 wrapper `$curry` of
`src/unnamed/part_002` (lines 85-101): a `switch (arguments.length)` with
cases 1, 2 and 3 and no default, so any other supplied count falls through
and the wrapper returns `undefined` (`none` here).  The nested `$$curry`
invokes the target only on exactly 2 arguments. -/
def curry3E {V R : Type} (u : V) (fn : V → V → V → R) (args : List V) :
    Option (Curry3Res V R) :=
  match args.length with
  | 1 => some (.waitBC (fun args2 =>
      if args2.length = 2 then
        .done (fn (args.getD 0 u) (args2.getD 0 u) (args2.getD 1 u))
      else
        .waitC (fun args3 => fn (args.getD 0 u) (args2.getD 0 u) (args3.getD 0 u))))
  | 2 => some (.waitC (fun args2 => fn (args.getD 0 u) (args.getD 1 u) (args2.getD 0 u)))
  | 3 => some (.done (fn (args.getD 0 u) (args.getD 1 u) (args.getD 2 u)))
  | _ => none

/-- Embedding of the arrow-variant arity-2 wrapper of `src/unnamed/part_000`
(lines 193-195).  The wrapper is the arrow `(a, b?) => arguments.length >= 2
? fn(a, b) : (b) => fn(a, b)`; arrow functions do not bind `arguments`, so
the count tested is `curryArgc`, the number of arguments supplied to the
enclosing `curry(fn)` call itself, not the count supplied to this call. -/
def curry000two {V R : Type} (u : V) (curryArgc : Nat) (fn : V → V → R)
    (args : List V) : Curry2Res V R :=
  if 2 ≤ curryArgc then
    .done (fn (args.getD 0 u) (args.getD 1 u))
  else
    .wait (fun args2 => fn (args.getD 0 u) (args2.getD 0 u))

/-- Embedding of the arrow-variant arity-3 wrapper of `src/unnamed/part_000`
(lines 199-208).  As in `curry000two`, every `arguments.length` read inside
the arrows resolves to `curryArgc`, the argument count of the enclosing
`curry(fn)` call. -/
def curry000three {V R : Type} (u : V) (curryArgc : Nat) (fn : V → V → V → R)
    (args : List V) : Curry3Res V R :=
  if 3 ≤ curryArgc then
    .done (fn (args.getD 0 u) (args.getD 1 u) (args.getD 2 u))
  else if curryArgc = 2 then
    .waitC (fun args2 => fn (args.getD 0 u) (args.getD 1 u) (args2.getD 0 u))
  else
    .waitBC (fun args2 =>
      if 2 ≤ curryArgc then
        .done (fn (args.getD 0 u) (args2.getD 0 u) (args2.getD 1 u))
      else
        .waitC (fun args3 => fn (args.getD 0 u) (args2.getD 0 u) (args3.getD 0 u)))

/-- A target function together with its declared parameter count
(`Function.length`).  `tN k f` is a target of declared arity `k + 4`,
covering every arity greater than 3. -/
inductive Target (V : Type) where
  | t0 (f : Unit → V)
  | t1 (f : V → V)
  | t2 (f : V → V → V)
  | t3 (f : V → V → V → V)
  | tN (k : Nat) (f : List V → V)

/-- The declared arity (`fn.length`) of a target. -/
def Target.length {V : Type} : Target V → Nat
  | .t0 _ => 0
  | .t1 _ => 1
  | .t2 _ => 2
  | .t3 _ => 3
  | .tN k _ => k + 4

/-- Callable surface returned by the canonical `curry` of
`src/unnamed/part_001` (and, with different wrapper semantics, by the arrow
variant of `src/unnamed/part_000`): an arity-2 or arity-3 wrapper. -/
inductive Curried001 (V : Type) where
  | c2 (k : List V → Curry2Res V V)
  | c3 (k : List V → Curry3Res V V)

/-- Embedding of the canonical `curry` of `src/unnamed/part_001`
(lines 122-143): wrap arity-2 and arity-3 targets, otherwise throw
`Error("Unsupported arity: " + fn.length)`. -/
def curry001 {V : Type} (u : V) (t : Target V) : Except String (Curried001 V) :=
  match t with
  | .t2 f => .ok (.c2 (curry2 u f))
  | .t3 f => .ok (.c3 (curry3 u f))
  | t => .error ("Unsupported arity: " ++ toString t.length)

/-- Embedding of the arrow-variant `curry` of `src/unnamed/part_000`
(lines 191-212).  The wrapper bodies read the enclosing call's
`arguments.length`, which is 1 for the call `curry(fn)`. -/
def curry000 {V : Type} (u : V) (t : Target V) : Except String (Curried001 V) :=
  match t with
  | .t2 f => .ok (.c2 (curry000two u 1 f))
  | .t3 f => .ok (.c3 (curry000three u 1 f))
  | t => .error ("Unsupported arity: " ++ toString t.length)

/-- Callable surface returned by the switch-variant `curry` of
`src/unnamed/part_002`: arity-0/1 targets are handed back unchanged, arity
2/3 get wrappers. -/
inductive Curried002 (V : Type) where
  | same0 (f : Unit → V)
  | same1 (f : V → V)
  | c2 (k : List V → Curry2Res V V)
  | c3 (k : List V → Option (Curry3Res V V))

/-- Embedding of the switch-variant `curry` of `src/unnamed/part_002`
(lines 72-104): a `switch (fn.length)` over cases 0-3 with no default and no
throw, so a target of any other arity makes `curry` return `undefined`
(`none` here). -/
def curry002 {V : Type} (u : V) (t : Target V) : Option (Curried002 V) :=
  match t with
  | .t0 f => some (.same0 f)
  | .t1 f => some (.same1 f)
  | .t2 f => some (.c2 (curry2E u f))
  | .t3 f => some (.c3 (curry3E u f))
  | .tN _ _ => none

/-- Concrete binary target mirroring the test suite's `add`: numeric
addition, `undefined` on non-numbers. -/
def jadd : JsVal → JsVal → JsVal
  | .num x, .num y => .num (x + y)
  | _, _ => JsVal.undef

/-- Concrete ternary target mirroring the test suite's `add3`. -/
def jadd3 (a b c : JsVal) : JsVal := jadd (jadd a b) c

/-- Concrete binary target returning its first argument. -/
def jfst (a _b : JsVal) : JsVal := a

/-- Lift of a declared-unary synchronous stage: a JavaScript function of one
parameter reads the first supplied argument (or `undefined` when absent) and
ignores the rest of the argument list. -/
def unaryS {V : Type} (u : V) (f : V → V) : List V → V :=
  fun args => f (args.getD 0 u)

/-- Lift of a declared-unary stage in async mode: its settled outcome is an
`Except` (fulfilled `.ok` or rejected `.error`, covering both a synchronous
throw and a rejected pending computation). -/
def unaryA {V E : Type} (u : V) (f : V → Except E V) : List V → Except E V :=
  fun args => f (args.getD 0 u)

/-- The loop body shared by the synchronous reducers of `src/src/pipe.ts` and
`src/src/compose.ts`: `result = fns[i]?.(result)`.  A present stage is called
with the single argument `result` (the one-element list `[v]`); an absent
stage (`none`) makes the optional call evaluate to `undefined`, so the
accumulator becomes `u`. -/
def pipeSyncListLoop {V : Type} (u : V) :
    V → List (Option (List V → V)) → V
  | v, [] => v
  | _, none :: rest => pipeSyncListLoop u u rest
  | v, some f :: rest => pipeSyncListLoop u (f [v]) rest

/-- The loop body shared by the async reducers: `result = await
fns[i]?.(result)`.  A rejected stage rejects the whole run at once (the
exception aborts the loop); an absent stage yields `await undefined =
undefined`. -/
def pipeListLoop {V E : Type} (u : V) :
    V → List (Option (List V → Except E V)) → Except E V
  | v, [] => .ok v
  | _, none :: rest => pipeListLoop u u rest
  | v, some f :: rest =>
    match f [v] with
    | .error e => .error e
    | .ok w => pipeListLoop u w rest

/-- Embedding of the apply-now async `pipe(value, ...fns)` of
`src/src/pipe.ts` (lines 81-90): `result = await value` (a rejected seed
rejects the returned pending computation), then the async loop over all
stages starting at index 0. -/
def pipe {V E : Type} (u : V) (value : Except E V)
    (fns : List (Option (List V → Except E V))) : Except E V :=
  match value with
  | .error e => .error e
  | .ok v => pipeListLoop u v fns

/-- Embedding of the apply-now `pipeSync(value, ...fns)` of `src/src/pipe.ts`
(lines 161-170): the synchronous loop over all stages starting from the seed. -/
def pipeSync {V : Type} (u : V) (value : V)
    (fns : List (Option (List V → V))) : V :=
  pipeSyncListLoop u value fns

/-- Embedding of the build-form `pipe(...fns)` of `src/src/pipe.ts`
(lines 294-302), a synchronous closure: `result = fns[0]?.(...args)` (so an
empty or absent first stage leaves `result = undefined`), then the loop from
index 1 with each stage called on the single accumulated value. -/
def pipeBuild {V : Type} (u : V) (fns : List (Option (List V → V)))
    (args : List V) : V :=
  match fns with
  | [] => u
  | none :: rest => pipeSyncListLoop u u rest
  | some f :: rest => pipeSyncListLoop u (f args) rest

/-- Embedding of the build-form `pipeAsync(...fns)` of `src/src/pipe.ts`
(lines 430-438): as `pipeBuild` but every stage result is awaited and the
returned pending computation rejects at the first failing stage. -/
def pipeAsync {V E : Type} (u : V) (fns : List (Option (List V → Except E V)))
    (args : List V) : Except E V :=
  match fns with
  | [] => .ok u
  | none :: rest => pipeListLoop u u rest
  | some f :: rest =>
    match f args with
    | .error e => .error e
    | .ok v => pipeListLoop u v rest

/-- Embedding of the build-form async `compose(...fns)` of
`src/src/compose.ts` (lines 81-89): `result = await
fns[fns.length - 1]?.(...args)` followed by the loop over indices
`fns.length - 2` down to `0`.  A descending index loop over `fns` is exactly
a forward loop over `fns.reverse`, so compose is the async build run on the
reversed stage list. -/
def compose {V E : Type} (u : V) (fns : List (Option (List V → Except E V)))
    (args : List V) : Except E V :=
  pipeAsync u fns.reverse args

/-- Embedding of the build-form `composeSync(...fns)` of `src/src/compose.ts`
(lines 168-176): the synchronous build run on the reversed stage list. -/
def composeSync {V : Type} (u : V) (fns : List (Option (List V → V)))
    (args : List V) : V :=
  pipeBuild u fns.reverse args

/-- Identity stage used in concrete runs, mirroring `(x) => x`. -/
def idStage : Option (List JsVal → Except String JsVal) :=
  some (fun args => .ok (args.getD 0 JsVal.undef))

/-- Failing stage used in concrete runs, mirroring the spec's scenario
`(x) => { throw new Error("boom") }`. -/
def boomStage : Option (List JsVal → Except String JsVal) :=
  some (fun _ => .error "boom")

/-- Running the async loop over a single present stage applies that stage to
the accumulated value and settles with the stage's outcome. -/
theorem pipeListLoop_single {V E : Type} (u v : V) (s : List V → Except E V) :
    pipeListLoop u v [some s] = s [v] := by
  cases h : s [v] with
  | error e => simp [pipeListLoop, h]
  | ok w => simp [pipeListLoop, h]

/-- The async loop over an appended stage list first runs the front list and,
only if it settles fulfilled, continues with the back list from the
accumulated value; a rejection of the front list is the rejection of the
whole run. -/
theorem pipeListLoop_append {V E : Type} (u : V)
    (fns₂ : List (Option (List V → Except E V))) :
    ∀ (fns₁ : List (Option (List V → Except E V))) (v : V),
      pipeListLoop u v (fns₁ ++ fns₂) =
        match pipeListLoop u v fns₁ with
        | .ok w => pipeListLoop u w fns₂
        | .error e => .error e := by
  intro fns₁
  induction fns₁ with
  | nil => intro v; rfl
  | cons hd tl ih =>
    intro v
    cases hd with
    | none => exact ih u
    | some f =>
      cases h : f [v] with
      | error e => simp [pipeListLoop, h]
      | ok w => simpa [pipeListLoop, h] using ih w

/-- If the async loop runs a prefix to a fulfilled value `w` and the next
stage rejects on `w`, the whole run rejects with that cause, whatever stages
follow. -/
theorem pipeListLoop_fail {V E : Type} (u v : V)
    (pre : List (Option (List V → Except E V))) (w : V)
    (f : List V → Except E V) (e : E)
    (hpre : pipeListLoop u v pre = .ok w) (hf : f [w] = .error e) :
    ∀ rest, pipeListLoop u v (pre ++ some f :: rest) = .error e := by
  intro rest
  rw [pipeListLoop_append u (some f :: rest) pre v, hpre]
  simp [pipeListLoop, hf]

/-- `pipeAsync` analogue of `pipeListLoop_fail` for a failing stage that is
not the first stage of the built pipeline. -/
theorem pipeAsync_fail {V E : Type} (u : V) (args : List V)
    (pre : List (Option (List V → Except E V))) (w : V)
    (f : List V → Except E V) (e : E)
    (hne : pre ≠ [])
    (hpre : pipeAsync u pre args = .ok w) (hf : f [w] = .error e) :
    ∀ rest, pipeAsync u (pre ++ some f :: rest) args = .error e := by
  intro rest
  cases pre with
  | nil => exact absurd rfl hne
  | cons hd tl =>
    cases hd with
    | none =>
      exact pipeListLoop_fail u u tl w f e hpre hf rest
    | some f₀ =>
      cases h0 : f₀ args with
      | error e0 => simp [pipeAsync, h0] at hpre
      | ok v =>
        have hpre2 : pipeListLoop u v tl = .ok w := by
          simpa [pipeAsync, h0] using hpre
        show pipeAsync u (some f₀ :: (tl ++ some f :: rest)) args = .error e
        simp only [pipeAsync, h0]
        exact pipeListLoop_fail u v tl w f e hpre2 hf rest

/-- C1: for every arity-2 target `f` and all values `a, b`, both call shapes
of the curried wrapper equal direct invocation (`curried(a, b)` and
`curried(a)(b)` both yield `f(a, b)`), and for every arity-3 target `g` and
all `a, b, c`, all four call shapes — `(a,b,c)`, `(a,b)(c)`, `(a)(b,c)`,
`(a)(b)(c)` — yield `g(a, b, c)`; this holds for the canonical curry of
`part_001` and for the switch-based curry of `part_002`. -/
theorem curry_call_shapes_agree {V R : Type} (u : V) (f : V → V → R)
    (g : V → V → V → R) (a b c : V) :
    (curry2 u f [a, b]).run [] = some (f a b)
    ∧ (curry2 u f [a]).run [[b]] = some (f a b)
    ∧ (curry3 u g [a, b, c]).run [] = some (g a b c)
    ∧ (curry3 u g [a, b]).run [[c]] = some (g a b c)
    ∧ (curry3 u g [a]).run [[b, c]] = some (g a b c)
    ∧ (curry3 u g [a]).run [[b], [c]] = some (g a b c)
    ∧ (curry2E u f [a, b]).run [] = some (f a b)
    ∧ (curry2E u f [a]).run [[b]] = some (f a b)
    ∧ (curry3E u g [a, b, c]).bind (fun r => Curry3Res.run r []) = some (g a b c)
    ∧ (curry3E u g [a, b]).bind (fun r => Curry3Res.run r [[c]]) = some (g a b c)
    ∧ (curry3E u g [a]).bind (fun r => Curry3Res.run r [[b, c]]) = some (g a b c)
    ∧ (curry3E u g [a]).bind (fun r => Curry3Res.run r [[b], [c]]) = some (g a b c) :=
  ⟨rfl, rfl, rfl, rfl, rfl, rfl, rfl, rfl, rfl, rfl, rfl, rfl⟩

/-- C2: evaluation at the failing input of the arrow-function curry variant
(`part_000`).  A two-argument call with the falsy values `0` and `""` must
invoke the target immediately; the arrow variant instead returns a waiting
closure, because `arguments.length` inside its arrows is the enclosing
`curry(fn)` call's count (always 1), so the count of arguments supplied to
the curried call is never consulted.  The canonical (`curry2`) and
switch-based (`curry2E`) wrappers dispatch on the supplied count and invoke
immediately with exactly those falsy values, while a one-argument call with
a falsy value still returns a waiting unary function. -/
theorem curry_arrow_count_bug :
    Curry2Res.isDone (curry000two JsVal.undef 1 jfst [JsVal.num 0, JsVal.jstr ""]) = false
    ∧ curry2 JsVal.undef jfst [JsVal.num 0, JsVal.jstr ""] = .done (JsVal.num 0)
    ∧ Curry2Res.isWait (curry2 JsVal.undef jfst [JsVal.num 0]) = true
    ∧ curry2E JsVal.undef jfst [JsVal.num 0, JsVal.jstr ""] = .done (JsVal.num 0)
    ∧ Curry2Res.isWait (curry2E JsVal.undef jfst [JsVal.num 0]) = true :=
  ⟨rfl, rfl, rfl, rfl, rfl⟩

/-- C3: evaluation at the failing input of the switch-based curry variant
(`part_002`).  Supplying more than the declared arity must equal the
exact-count call: the canonical wrapper discards the extras
(`curry2 ... = done 8`, `curry3 ... = done 6`, and extras are discarded at
the partial levels too), but the switch variant returns a waiting closure
for a 3-argument call on a binary target and `undefined` (`none`) for a
4-argument call on a ternary target. -/
theorem curry_extra_args_switch_bug :
    Curry2Res.isWait (curry2E JsVal.undef jadd [JsVal.num 5, JsVal.num 3, JsVal.num 999]) = true
    ∧ curry2 JsVal.undef jadd [JsVal.num 5, JsVal.num 3, JsVal.num 999] = .done (JsVal.num 8)
    ∧ curry3E JsVal.undef jadd3 [JsVal.num 1, JsVal.num 2, JsVal.num 3, JsVal.num 999] = none
    ∧ curry3 JsVal.undef jadd3 [JsVal.num 1, JsVal.num 2, JsVal.num 3, JsVal.num 999]
        = .done (JsVal.num 6)
    ∧ (curry3 JsVal.undef jadd3 [JsVal.num 1, JsVal.num 2]).run [[JsVal.num 3, JsVal.num 999]]
        = some (JsVal.num 6)
    ∧ (curry3 JsVal.undef jadd3 [JsVal.num 1]).run [[JsVal.num 2, JsVal.num 3, JsVal.num 999]]
        = some (JsVal.num 6) :=
  ⟨rfl, rfl, rfl, rfl, rfl, rfl⟩

/-- C4 counterexample: the canonical curry (`part_001`, the variant whose
behaviour the repository's test suite asserts) does not return arity-0/1
targets unchanged; it raises `Error("Unsupported arity: 0")` /
`Error("Unsupported arity: 1")`, refuting the claim that curry is an
error-free no-op identity over such targets. -/
theorem curry_arity01_raises :
    curry001 JsVal.undef (Target.t1 (fun v => v)) = .error "Unsupported arity: 1"
    ∧ curry001 JsVal.undef (Target.t0 (fun _ => JsVal.jnull)) = .error "Unsupported arity: 0" :=
  ⟨rfl, rfl⟩

/-- C4 amended: for targets of declared arity 0 or 1, the switch-based curry
variant (`part_002`) returns the target unchanged without error, but the
canonical curry (`part_001`, asserted by the tests) instead raises
`Error("Unsupported arity: 0")` / `Error("Unsupported arity: 1")`. -/
theorem curry_arity01_variants {V : Type} (u : V) (f : Unit → V) (g : V → V) :
    curry002 u (Target.t0 f) = some (.same0 f)
    ∧ curry002 u (Target.t1 g) = some (.same1 g)
    ∧ curry001 u (Target.t0 f) = .error "Unsupported arity: 0"
    ∧ curry001 u (Target.t1 g) = .error "Unsupported arity: 1" :=
  ⟨rfl, rfl,
    (rfl : curry001 u (Target.t0 f)
        = Except.error ("Unsupported arity: " ++ toString (0 : Nat))).trans
      (congrArg Except.error
        (rfl : ("Unsupported arity: " ++ toString (0 : Nat) : String)
          = "Unsupported arity: 0")),
    (rfl : curry001 u (Target.t1 g)
        = Except.error ("Unsupported arity: " ++ toString (1 : Nat))).trans
      (congrArg Except.error
        (rfl : ("Unsupported arity: " ++ toString (1 : Nat) : String)
          = "Unsupported arity: 1"))⟩

/-- C5: evaluation at the failing input of the switch-based curry variant
(`part_002`).  For a target of declared arity 4 the claim requires a
synchronous `UnsupportedArityError` naming the arity and never a
non-callable result; the switch variant's `switch (fn.length)` has no
default and no throw, so it returns `undefined` (`none`) — a non-callable
value.  The canonical curry (`part_001`, asserted by the tests) does raise
the required error naming arity 4 (and 5). -/
theorem curry_arity4_switch_bug :
    curry002 JsVal.undef (Target.tN 0 (fun args => args.getD 0 JsVal.undef)) = none
    ∧ curry001 JsVal.undef (Target.tN 0 (fun args => args.getD 0 JsVal.undef))
        = .error "Unsupported arity: 4"
    ∧ curry001 JsVal.undef (Target.tN 1 (fun args => args.getD 0 JsVal.undef))
        = .error "Unsupported arity: 5" :=
  ⟨rfl, rfl, rfl⟩

/-- C6 counterexample: a pipeline built from zero stages does not echo its
input.  `pipe()(5)` and `composeSync()(5)` evaluate `fns[0]?.(...)` (resp.
`fns[fns.length - 1]?.(...)`) on an absent stage, so they return
`undefined`, and the async build forms resolve to `undefined` — not to the
input `5`. -/
theorem zero_stage_build_returns_undefined :
    pipeBuild JsVal.undef [] [JsVal.num 5] = JsVal.undef
    ∧ composeSync JsVal.undef [] [JsVal.num 5] = JsVal.undef
    ∧ pipeAsync JsVal.undef ([] : List (Option (List JsVal → Except String JsVal)))
        [JsVal.num 5] = .ok JsVal.undef
    ∧ compose JsVal.undef ([] : List (Option (List JsVal → Except String JsVal)))
        [JsVal.num 5] = .ok JsVal.undef
    ∧ JsVal.undef ≠ JsVal.num 5 :=
  ⟨rfl, rfl, rfl, rfl, by decide⟩

/-- C6 amended: the apply-now forms with zero stages return the seed
unchanged (`pipe(x)` resolves to `x`, rejected seeds reject, `pipeSync(x)`
returns `x`), but a pipeline built from zero stages (`pipe()`,
`pipeAsync()`, `compose()`, `composeSync()`) returns a function that yields
`undefined` for every input (resolving to `undefined` in the async forms),
not a function echoing its input. -/
theorem zero_stage_pipeline_behavior {V E : Type} (u x v : V) (e : E)
    (args : List V) :
    pipeSync u x [] = x
    ∧ pipe u (Except.ok v) ([] : List (Option (List V → Except E V))) = .ok v
    ∧ pipe u (Except.error e) ([] : List (Option (List V → Except E V))) = .error e
    ∧ pipeBuild u [] args = u
    ∧ pipeAsync u ([] : List (Option (List V → Except E V))) args = .ok u
    ∧ compose u ([] : List (Option (List V → Except E V))) args = .ok u
    ∧ composeSync u [] args = u :=
  ⟨rfl, rfl, rfl, rfl, rfl, rfl, rfl⟩

/-- C7 counterexample: a missing stage is not treated as the identity.
`pipeSync(5, MISSING, id)` assigns `result = fns[0]?.(result)`, which is
`undefined` for an absent stage, so the identity second stage receives
`undefined` and the pipeline returns `undefined` — not `id(5) = 5` as the
claim requires. -/
theorem missing_stage_not_identity :
    pipeSync JsVal.undef (JsVal.num 5) [none, some (unaryS JsVal.undef (fun v => v))]
      = JsVal.undef
    ∧ JsVal.undef ≠ JsVal.num 5 :=
  ⟨rfl, by decide⟩

/-- C7 amended: an absent stage is not invoked, but the optional call
`fns[i]?.(result)` evaluates to `undefined`, so the accumulated value is
replaced by `undefined` and `undefined` is what the next stage receives:
`pipeSync(x, MISSING, g)` equals `g(undefined)`, and likewise in the async
apply-now form, the build forms, and both compose forms. -/
theorem missing_stage_yields_undefined {V E : Type} (u x : V) (g : V → V)
    (gA : V → Except E V) :
    pipeSync u x [none, some (unaryS u g)] = g u
    ∧ pipe u (Except.ok x) [none, some (unaryA u gA)] = gA u
    ∧ pipeBuild u [none, some (unaryS u g)] [x] = g u
    ∧ pipeAsync u [none, some (unaryA u gA)] [x] = gA u
    ∧ composeSync u [some (unaryS u g), none] [x] = g u
    ∧ compose u [some (unaryA u gA), none] [x] = gA u :=
  ⟨rfl, pipeListLoop_single u u (unaryA u gA), rfl,
    pipeListLoop_single u u (unaryA u gA), rfl,
    pipeListLoop_single u u (unaryA u gA)⟩

/-- C8: in every async-mode engine (apply-now `pipe`, built `pipeAsync`,
built `compose`), if the stages before position `k` (in application order)
run to a fulfilled value `w` and the stage at position `k` fails on its
input with cause `e`, then the returned pending computation settles as
failed with exactly that cause, and the result is the same whatever stages
follow position `k` — so no later stage is ever invoked.  Stated both for a
failing stage after a nonempty prefix and for a failing first stage. -/
theorem pipe_failure_short_circuits {V E : Type} :
    (∀ (u : V) (value : Except E V) (pre : List (Option (List V → Except E V)))
        (w : V) (f : List V → Except E V) (e : E) (rest rest₂ : List (Option (List V → Except E V))),
      pipe u value pre = .ok w → f [w] = .error e →
        pipe u value (pre ++ some f :: rest) = .error e
        ∧ pipe u value (pre ++ some f :: rest) = pipe u value (pre ++ some f :: rest₂))
    ∧ (∀ (u : V) (args : List V) (pre : List (Option (List V → Except E V)))
        (w : V) (f : List V → Except E V) (e : E) (rest rest₂ : List (Option (List V → Except E V))),
      pre ≠ [] → pipeAsync u pre args = .ok w → f [w] = .error e →
        pipeAsync u (pre ++ some f :: rest) args = .error e
        ∧ pipeAsync u (pre ++ some f :: rest) args = pipeAsync u (pre ++ some f :: rest₂) args)
    ∧ (∀ (u : V) (args : List V) (f : List V → Except E V) (e : E)
        (rest rest₂ : List (Option (List V → Except E V))),
      f args = .error e →
        pipeAsync u (some f :: rest) args = .error e
        ∧ pipeAsync u (some f :: rest) args = pipeAsync u (some f :: rest₂) args)
    ∧ (∀ (u : V) (args : List V) (preA : List (Option (List V → Except E V)))
        (w : V) (f : List V → Except E V) (e : E) (restA restA₂ : List (Option (List V → Except E V))),
      preA ≠ [] → compose u preA.reverse args = .ok w → f [w] = .error e →
        compose u (preA ++ some f :: restA).reverse args = .error e
        ∧ compose u (preA ++ some f :: restA).reverse args
            = compose u (preA ++ some f :: restA₂).reverse args)
    ∧ (∀ (u : V) (args : List V) (f : List V → Except E V) (e : E)
        (restA restA₂ : List (Option (List V → Except E V))),
      f args = .error e →
        compose u (some f :: restA).reverse args = .error e
        ∧ compose u (some f :: restA).reverse args
            = compose u (some f :: restA₂).reverse args) := by
  refine ⟨?_, ?_, ?_, ?_, ?_⟩
  · intro u value pre w f e rest rest₂ hpre hf
    cases value with
    | error e0 => simp [pipe] at hpre
    | ok v =>
      have hpre2 : pipeListLoop u v pre = .ok w := hpre
      exact ⟨pipeListLoop_fail u v pre w f e hpre2 hf rest,
        (pipeListLoop_fail u v pre w f e hpre2 hf rest).trans
          (pipeListLoop_fail u v pre w f e hpre2 hf rest₂).symm⟩
  · intro u args pre w f e rest rest₂ hne hpre hf
    exact ⟨pipeAsync_fail u args pre w f e hne hpre hf rest,
      (pipeAsync_fail u args pre w f e hne hpre hf rest).trans
        (pipeAsync_fail u args pre w f e hne hpre hf rest₂).symm⟩
  · intro u args f e rest rest₂ hf
    constructor
    · simp [pipeAsync, hf]
    · simp [pipeAsync, hf]
  · intro u args preA w f e restA restA₂ hne hpre hf
    rw [compose, List.reverse_reverse] at hpre ⊢
    rw [compose, List.reverse_reverse]
    exact ⟨pipeAsync_fail u args preA w f e hne hpre hf restA,
      (pipeAsync_fail u args preA w f e hne hpre hf restA).trans
        (pipeAsync_fail u args preA w f e hne hpre hf restA₂).symm⟩
  · intro u args f e restA restA₂ hf
    rw [compose, List.reverse_reverse]
    rw [compose, List.reverse_reverse]
    constructor
    · simp [pipeAsync, hf]
    · simp [pipeAsync, hf]

/-- C8 witness: concrete run of the spec's scenario — a middle stage throwing
`"boom"` makes the whole async pipeline settle as failed with `"boom"`,
independently of the stage placed after it. -/
theorem pipe_failure_short_circuits_witness :
    pipe JsVal.undef (Except.ok (JsVal.num 1)) ([idStage] ++ boomStage :: [idStage])
      = Except.error "boom" :=
  (pipe_failure_short_circuits.1 JsVal.undef (Except.ok (JsVal.num 1)) [idStage]
    (JsVal.num 1) (fun _ => Except.error "boom") "boom" [idStage] [] rfl rfl).1

/-- C9: left-to-right threading — `pipeSync(x, f, g)` equals `g(f(x))`, and
the apply-now async `pipe(x, f, g)` settles to the same outcome as awaiting
`g` applied to the awaited result of `f` applied to the awaited seed `x`
(the `Except.bind` chain over settled outcomes). -/
theorem pipe_threading_laws {V E : Type} (u : V) (x : V) (xE : Except E V)
    (f g : V → V) (fA gA : V → Except E V) :
    pipeSync u x [some (unaryS u f), some (unaryS u g)] = g (f x)
    ∧ pipe u xE [some (unaryA u fA), some (unaryA u gA)]
        = Except.bind xE (fun v => Except.bind (fA v) gA) := by
  constructor
  · rfl
  · cases xE with
    | error e => rfl
    | ok v =>
      show pipeListLoop u v [some (unaryA u fA), some (unaryA u gA)]
        = Except.bind (fA v) gA
      cases h : fA v with
      | error e => simp [pipeListLoop, unaryA, h, Except.bind]
      | ok w =>
        simpa [pipeListLoop, unaryA, h, Except.bind] using
          pipeListLoop_single u w (unaryA u gA)

/-- C10: evaluation showing the arrow-function curry variant (`part_000`)
and the named-function-expression variant (`part_001`) are not
observationally equivalent.  On the direct call shapes the arrow variant
returns a waiting closure where the named variant invokes the target
(`curried(5, 10)` yields 15, `curried(1, 2, 3)` yields 6); the two variants
agree on the fully-chained one-argument-at-a-time shape. -/
theorem curry_variant_equivalence_bug :
    Curry2Res.isDone (curry000two JsVal.undef 1 jadd [JsVal.num 5, JsVal.num 10]) = false
    ∧ curry2 JsVal.undef jadd [JsVal.num 5, JsVal.num 10] = .done (JsVal.num 15)
    ∧ Curry3Res.isDone (curry000three JsVal.undef 1 jadd3
        [JsVal.num 1, JsVal.num 2, JsVal.num 3]) = false
    ∧ curry3 JsVal.undef jadd3 [JsVal.num 1, JsVal.num 2, JsVal.num 3]
        = .done (JsVal.num 6)
    ∧ (curry000two JsVal.undef 1 jadd [JsVal.num 5]).run [[JsVal.num 10]]
        = some (JsVal.num 15)
    ∧ (curry2 JsVal.undef jadd [JsVal.num 5]).run [[JsVal.num 10]]
        = some (JsVal.num 15) :=
  ⟨rfl, rfl, rfl, rfl, rfl, rfl⟩

end FP
